import Mathlib

/-!
Verification of the derived-artifact generation pipeline
(contour export, DEM export, imagery export with clipping fallback chain)
of the dff_architecture repository, as a shallow embedding in Lean 4.

The Python sources are embedded as executable Lean functions over an
explicit environment (file-system predicate, PATH lookup, layer loader,
subprocess outcomes, tile-fetch response), with `pathlib.Path` modelled
as an absolute-flag plus a list of components, Python `str` as `String`,
Python floats in config values as `ℚ` (with Python truthiness: `0.0`,
`""` and `None` are falsy), and fallible code returning `Except String`.
-/

namespace DFF

/-- ASCII lowercase of a string, modelling Python `str.lower` on the
    ASCII file suffixes the code compares. -/
def strLower (s : String) : String := String.mk (s.data.map Char.toLower)

/-- Python truthiness of an optional string: `None` and `""` are falsy. -/
def optTruthy : Option String → Bool
  | none => false
  | some s => s ≠ ""

/-- Python `a or b` on optional strings: `b` if `a` is falsy. -/
def orStr (a b : Option String) : Option String :=
  if optTruthy a then a else b

/-- Python truthiness of an optional float (`None` and `0.0` are falsy). -/
def qTruthy : Option ℚ → Bool
  | none => false
  | some q => q ≠ 0

/-- A `pathlib.Path`: whether it is absolute, plus its components. -/
structure PyPath where
  isAbsolute : Bool
  comps : List String
deriving DecidableEq, Repr

namespace PyPath

/-- Model of `Path.name`: the final component (empty for a bare root). -/
def name (p : PyPath) : String := p.comps.getLast?.getD ""

/-- Model of `Path.parent`: drop the final component. -/
def parent (p : PyPath) : PyPath := ⟨p.isAbsolute, p.comps.dropLast⟩

/-- Model of `path / child` for a relative `child` path (pathlib join). -/
def join (p c : PyPath) : PyPath :=
  if c.isAbsolute then c else ⟨p.isAbsolute, p.comps ++ c.comps⟩

/-- Model of `path / "literal"`: append one component. -/
def joinS (p : PyPath) (s : String) : PyPath := ⟨p.isAbsolute, p.comps ++ [s]⟩

/-- Index (from the front) of the last `.` in a file name, if any. -/
def lastDot (name : String) : Option Nat :=
  match name.data.reverse.findIdx? (fun c => c = '.') with
  | none => none
  | some r => some (name.data.length - 1 - r)

/-- Model of `Path.suffix` (CPython): `name[i:]` for the last dot index `i` when
    `0 < i < len(name) - 1`, else `""`. -/
def suffix (p : PyPath) : String :=
  let n := p.name
  match lastDot n with
  | none => ""
  | some i =>
      if 0 < i ∧ i < n.data.length - 1 then String.mk (n.data.drop i) else ""

/-- Model of `Path.stem`: the final component without its suffix. -/
def stem (p : PyPath) : String :=
  let n := p.name
  String.mk (n.data.take (n.data.length - (suffix p).data.length))

/-- Model of `Path.with_suffix` (CPython): strip the old suffix from the final
    component (append if there is none) and attach the new one. -/
def withSuffix (p : PyPath) (newSuf : String) : PyPath :=
  let n := p.name
  let old := suffix p
  let newName :=
    if old = "" then n ++ newSuf
    else String.mk (n.data.take (n.data.length - old.data.length)) ++ newSuf
  ⟨p.isAbsolute, p.comps.dropLast ++ [newName]⟩

/-- Posix-style rendering of a path (`str(path)`). -/
def render (p : PyPath) : String :=
  (if p.isAbsolute then "/" else "") ++ String.intercalate "/" p.comps

end PyPath

/-- Propositional equality on `Except` results is decidable. -/
instance exceptDecEq {e a : Type} [DecidableEq e] [DecidableEq a] :
    DecidableEq (Except e a) := fun x y =>
  match x, y with
  | .error u, .error v =>
      if h : u = v then isTrue (by rw [h]) else isFalse (by intro hc; cases hc; exact h rfl)
  | .ok u, .ok v =>
      if h : u = v then isTrue (by rw [h]) else isFalse (by intro hc; cases hc; exact h rfl)
  | .error _, .ok _ => isFalse (by intro hc; cases hc)
  | .ok _, .error _ => isFalse (by intro hc; cases hc)

/-- The file-system abstraction: which paths exist. -/
def FS := PyPath → Bool

/-- Embeds `ogr2ogr_export.normalize_input_path`: if the path has (case-insensitive)
    suffix `.shx` and the sibling `.shp` exists, return the sibling;
    otherwise return the input unchanged. -/
def normalize_input_path (fs : FS) (input_path : PyPath) : PyPath :=
  let in_path := input_path
  if strLower in_path.suffix = ".shx" then
    let shp_path := in_path.withSuffix ".shp"
    if fs shp_path then shp_path else in_path
  else in_path

/-- Fractional decimal digits of a nonnegative rational, with fuel
    (used to render Python float literals). -/
def fracDigits : Nat → ℚ → String
  | 0, _ => ""
  | Nat.succ n, x =>
      if x = 0 then ""
      else
        let y := x * 10
        let d : ℤ := y.floor
        toString d ++ fracDigits n (y - (d : ℚ))

/-- Python `str` of a float config value (modelled as a rational):
    integral values render as `n.0`, others with their decimal digits. -/
def pyFloatRepr (q : ℚ) : String :=
  if q.den = 1 then toString q.num ++ ".0"
  else
    (if q < 0 then "-" else "") ++ toString (|q|.floor) ++ "." ++
      fracDigits 25 (|q| - (|q|.floor : ℚ))

/-- Embeds `ogr2ogr_export.build_sql`: optional SQLite-dialect query combining an
    interval filter (keep elevations within `1e-6` of a multiple of the
    interval) and/or fragment merging (collect and line-merge geometry
    grouped by the elevation field).  Python truthiness: a `None` or `0.0`
    interval requests no filter. -/
def build_sql (layer_name : String) (z_field : String)
    (contour_interval : Option ℚ) (merge_fragments : Bool) : Option String :=
  if ¬(qTruthy contour_interval || merge_fragments) then none
  else
    let clauses : List String :=
      if qTruthy contour_interval then
        let iv := pyFloatRepr (contour_interval.getD 0)
        ["ABS((" ++ z_field ++ " / " ++ iv ++ ") - ROUND(" ++ z_field ++
          " / " ++ iv ++ ")) < 1e-6"]
      else []
    let where_sql :=
      if clauses ≠ [] then " WHERE " ++ String.intercalate " AND " clauses else ""
    if merge_fragments then
      some ("SELECT ST_LineMerge(ST_Collect(geometry)) AS geometry, " ++ z_field ++
        " FROM " ++ layer_name ++ where_sql ++ " GROUP BY " ++ z_field)
    else
      some ("SELECT * FROM " ++ layer_name ++ where_sql)

/-- Environment for tool location: file existence and `shutil.which`. -/
structure ToolEnv where
  fs : FS
  which : String → Option String

/-- Shared body of `find_ogr2ogr` / `find_gdalwarp` / `find_gdal_translate`
    (the three sources are identical up to the tool name): explicit override
    first (no existence check), then PATH, then `prefix/bin/tool`, then for
    an `apps/qgis` install prefix `root/bin/tool.exe` and `root/bin/tool`. -/
def findTool (tool : String) (explicit_path : Option String)
    (qgisPref : Option PyPath) (env : ToolEnv) : Option String :=
  if optTruthy explicit_path then explicit_path
  else
    let w := env.which tool
    if optTruthy w then w
    else
      match qgisPref with
      | none => none
      | some pref =>
          let mac_candidate := (pref.joinS "bin").joinS tool
          if env.fs mac_candidate then some mac_candidate.render
          else if pref.name = "qgis" ∧ pref.parent.name = "apps" then
            let root := pref.parent.parent
            let win_candidate := (root.joinS "bin").joinS (tool ++ ".exe")
            if env.fs win_candidate then some win_candidate.render
            else
              let nix_candidate := (root.joinS "bin").joinS tool
              if env.fs nix_candidate then some nix_candidate.render
              else none
          else none

/-- Embeds `ogr2ogr_export.find_ogr2ogr`. -/
def find_ogr2ogr (explicit_path : Option String) (qgisPref : Option PyPath)
    (env : ToolEnv) : Option String :=
  findTool "ogr2ogr" explicit_path qgisPref env

/-- Embeds `raster_export.find_gdalwarp`. -/
def find_gdalwarp (explicit_path : Option String) (qgisPref : Option PyPath)
    (env : ToolEnv) : Option String :=
  findTool "gdalwarp" explicit_path qgisPref env

/-- Embeds `raster_export.find_gdal_translate`. -/
def find_gdal_translate (explicit_path : Option String) (qgisPref : Option PyPath)
    (env : ToolEnv) : Option String :=
  findTool "gdal_translate" explicit_path qgisPref env

/-- First existing path among a list of candidates. -/
def firstExisting (fs : FS) (cands : List PyPath) : Option PyPath :=
  cands.find? (fun p => fs p)

/-- Tool location as the spec's words describe it (for claim C5):
    explicit override wins unconditionally without an existence check;
    otherwise the system PATH lookup; otherwise the first existing
    candidate among the bundled-application layout `prefix/bin/tool` and,
    for a package-root `apps` layout, `root/bin/tool.exe` then
    `root/bin/tool`; otherwise not found. -/
def locateSpec (tool : String) (explicit_path : Option String)
    (qgisPref : Option PyPath) (env : ToolEnv) : Option String :=
  if optTruthy explicit_path then explicit_path
  else if optTruthy (env.which tool) then env.which tool
  else
    match qgisPref with
    | none => none
    | some pref =>
        let appsLayout := pref.name = "qgis" ∧ pref.parent.name = "apps"
        let root := pref.parent.parent
        let cands :=
          [(pref.joinS "bin").joinS tool] ++
            (if appsLayout then
              [(root.joinS "bin").joinS (tool ++ ".exe"), (root.joinS "bin").joinS tool]
            else [])
        (firstExisting env.fs cands).map PyPath.render

/-- Embeds `dem_export.resolve_path`: root-join a configured possibly-relative
    path; `None` (or an empty setting) resolves to nothing. -/
def resolve_path (project_dir : PyPath) (path_str : Option PyPath) : Option PyPath :=
  match path_str with
  | none => none
  | some candidate =>
      some (if candidate.isAbsolute then candidate else project_dir.join candidate)

/-- Configuration consumed by `run_export_contours`
    (from `ogr2ogr_export.load_env` plus CLI arguments). -/
structure ContourCfg where
  project_dir : PyPath
  output_dir : PyPath
  qgisPref : Option PyPath
  ogr2ogr_path : Option String
  gdal_data : Option String
  contour_shp : Option PyPath
  contour_dxf : Option PyPath
  contour_z_field : String
  contour_interval : Option ℚ
  merge_fragments : Option Bool

/-- System environment for the contour exporter: file system, PATH
    lookup, and whether the external `ogr2ogr` subprocess exits zero. -/
structure SysEnv where
  fs : FS
  which : String → Option String
  subprocessOk : Bool

/-- The tool-location view of a `SysEnv`. -/
def SysEnv.tools (env : SysEnv) : ToolEnv := ⟨env.fs, env.which⟩

/-- Input-path resolution of `run_export_contours` (lines 108-114): the
    argument or the configured contour source, root-joined when relative. -/
def contour_in_candidate (cfg : ContourCfg) (c : PyPath) : PyPath :=
  if c.isAbsolute then c else cfg.project_dir.join c

/-- Input resolution of `run_export_contours` (lines 108-116): pick the
    source path, root-join, normalize the shapefile sidecar, and require
    existence. -/
def contourResolveInput (fs : FS) (cfg : ContourCfg)
    (input_path : Option PyPath) : Except String PyPath :=
  match input_path <|> cfg.contour_shp with
  | none => .error "Contour shapefile not provided. Set --input or CONTOUR_SHP_PATH."
  | some c =>
      let in_path := normalize_input_path fs (contour_in_candidate cfg c)
      if fs in_path then .ok in_path
      else .error "Contour shapefile not found"

/-- Output path of `run_export_contours` (lines 117-118). -/
def contourOutPath (cfg : ContourCfg) (output_path : Option PyPath)
    (in_path : PyPath) : PyPath :=
  match output_path <|> cfg.contour_dxf with
  | some o => o
  | none => cfg.output_dir.joinS (in_path.stem ++ "_3d.dxf")

/-- Result of a producer run: the output path, whether the generation
    step actually executed, and (for contours) the query handed to the
    translation tool. -/
structure ContourOutcome where
  out : PyPath
  generated : Bool
  sql : Option String
deriving DecidableEq, Repr

/-- Embeds `ogr2ogr_export.run_export_contours`: resolve the input, consult the
    output cache (`exists && not force` skips), locate `ogr2ogr`, build the
    optional query, and have `ogr2ogr` translate to DXF. -/
def run_export_contours (env : SysEnv) (cfg : ContourCfg)
    (input_path output_path : Option PyPath) (z_field : String)
    (contour_interval : Option ℚ) (merge_fragments : Option Bool)
    (force : Bool) : Except String ContourOutcome :=
  match contourResolveInput env.fs cfg input_path with
  | .error e => .error e
  | .ok in_path =>
      let out_path := contourOutPath cfg output_path in_path
      if env.fs out_path && !force then .ok ⟨out_path, false, none⟩
      else
        match find_ogr2ogr cfg.ogr2ogr_path cfg.qgisPref env.tools with
        | none => .error "ogr2ogr not found. Set OGR2OGR_PATH or add it to PATH."
        | some _ =>
            let interval :=
              match contour_interval with
              | some i => some i
              | none => cfg.contour_interval
            let merge :=
              match merge_fragments with
              | some b => b
              | none => cfg.merge_fragments.getD false
            let zf := if z_field ≠ "" then z_field else cfg.contour_z_field
            let sql := build_sql in_path.stem zf interval merge
            if env.subprocessOk then .ok ⟨out_path, true, sql⟩
            else .error "ogr2ogr exited with a non-zero status"

/-- A loaded layer handle: its attribute fields and its source string
    (the parts of a QGIS layer the pipeline reads). -/
structure Layer where
  fields : List String
  source : String
deriving DecidableEq, Repr

/-- A loaded QGIS project: name-indexed layer lookup. -/
structure ProjEnv where
  layersByName : String → Option Layer

/-- Model of `QgsFields.indexFromName` as the pipeline relies on it: position of
    the field, `-1` when absent. -/
def indexFromName (fields : List String) (n : String) : Int :=
  match fields with
  | [] => -1
  | f :: rest =>
      if f = n then 0
      else
        let r := indexFromName rest n
        if r < 0 then -1 else r + 1

/-- The fixed extension probe list of `qgis_map.load_data_layer`. -/
def layerExts : List String :=
  [".gpkg", ".shp", ".geojson", ".tif", ".tiff", ".vrt", ".jp2", ".jpg",
    ".jpeg", ".png"]

/-- Append an extension to the textual form of a relative path
    (`project_dir / f"{rel_path}{ext}"` acts on the last component). -/
def appendExt (rel : PyPath) (ext : String) : PyPath :=
  match rel.comps.getLast? with
  | none => ⟨rel.isAbsolute, [ext]⟩
  | some last => ⟨rel.isAbsolute, rel.comps.dropLast ++ [last ++ ext]⟩

/-- The path-probing half of `qgis_map.load_data_layer`: the joined
    candidate if it exists, else the first hit among the common
    vector/raster extensions. -/
def probeLayerPath (fs : FS) (project_dir : PyPath) (rel : PyPath) : Option PyPath :=
  let candidate := project_dir.join rel
  if fs candidate then some candidate
  else (layerExts.map (fun e => project_dir.join (appendExt rel e))).find? fs

/-- Per-run QGIS/processing/network environment for the DEM and imagery
    producers.  `layers` is the result of opening a file path as a layer
    (`none` = the open fails / the layer is invalid). -/
structure TileResp where
  status : Nat
  body : List Nat
deriving DecidableEq, Repr

/-- Whether one clipping stage reports success and whether it leaves an
    output file behind. -/
structure ClipAttempt where
  ok : Bool
  wrote : Bool
deriving DecidableEq, Repr

/-- Outcome of launching an external subprocess: a zero exit, a non-zero
    exit (raised as `CalledProcessError`), or a failure to start at all
    (`OSError`/`FileNotFoundError`, e.g. a tool path that does not
    exist). -/
inductive SubprocRes where
  | success
  | calledProcessError
  | osError
deriving DecidableEq, Repr

structure QgisEnv where
  fs : FS
  which : String → Option String
  qgisOk : Bool
  layers : PyPath → Option Layer
  projectLoad : Option ProjEnv
  serviceLayerOpens : Bool
  serviceLayer : Layer
  tileFetch : Option TileResp
  processingOk : Bool
  renderOk : Bool
  fallbackOk : Bool
  clip1 : ClipAttempt
  clip2Subproc : SubprocRes
  clip2Wrote : Bool
  copyOk : Bool

/-- The tool-location view of a `QgisEnv`. -/
def QgisEnv.tools (env : QgisEnv) : ToolEnv := ⟨env.fs, env.which⟩

/-- The file-path case of `qgis_map.load_data_layer`: probe for the file,
    fail if nothing is found, open it and require validity. -/
def load_data_layer (env : QgisEnv) (project_dir : PyPath) (rel : PyPath) :
    Except String Layer :=
  match probeLayerPath env.fs project_dir rel with
  | none => .error "Could not find layer (tried common vector/raster extensions)."
  | some lp =>
      match env.layers lp with
      | some l => .ok l
      | none => .error "Failed to load layer"

/-- Embeds `raster_export.resolve_layer_path`: an existing absolute path as-is,
    else the project-joined path when that exists, else nothing. -/
def resolve_layer_path (fs : FS) (project_dir : PyPath) (p : PyPath) : Option PyPath :=
  if p.isAbsolute ∧ fs p then some p
  else
    let rel := project_dir.join p
    if fs rel then some rel else none

/-- The boundary-related configuration consumed by
    `raster_export.load_boundary_layer` (the DEM config has no
    subject-layer key, so it passes `none` there). -/
structure BoundaryCfg where
  project_dir : PyPath
  boundary_path : Option PyPath
  boundary_layer : Option String
  subject_layer : Option String

/-- Embeds `raster_export.load_boundary_layer`: from an explicit boundary path
    (resolved, or loaded best-effort by name with failures swallowed),
    else from the loaded project by layer name, else by loading the layer
    name as a data source (failures swallowed).  Only the resolved-path
    branch propagates load failures. -/
def load_boundary_layer (env : QgisEnv) (cfg : BoundaryCfg)
    (project : Option ProjEnv) : Except String (Option Layer) :=
  let boundary_layer_name := orStr cfg.boundary_layer cfg.subject_layer
  match cfg.boundary_path with
  | some bp =>
      (match resolve_layer_path env.fs cfg.project_dir bp with
        | some maybe => (load_data_layer env cfg.project_dir maybe).map some
        | none =>
            match load_data_layer env cfg.project_dir bp with
            | .ok l => .ok (some l)
            | .error _ => .ok none)
  | none =>
      let fromProject :=
        match project, boundary_layer_name with
        | some proj, some name => if name ≠ "" then proj.layersByName name else none
        | _, _ => none
      match fromProject with
      | some l => .ok (some l)
      | none =>
          match boundary_layer_name with
          | some name =>
              if name ≠ "" then
                match load_data_layer env cfg.project_dir ⟨false, [name]⟩ with
                | .ok l => .ok (some l)
                | .error _ => .ok none
              else .ok none
          | none => .ok none

/-- Configuration consumed by `run_export_dem`
    (from `dem_export.load_env`). -/
structure DemCfg where
  project_dir : PyPath
  output_dir : PyPath
  qgisPref : Option PyPath
  contour_shp : Option PyPath
  boundary_path : Option PyPath
  boundary_layer : Option String
  dem_tif : Option PyPath
  dem_pixel_size : Option ℚ
  contour_z_field : String

/-- The boundary-cfg view of a DEM config (no subject-layer key). -/
def DemCfg.boundaryCfg (cfg : DemCfg) : BoundaryCfg :=
  ⟨cfg.project_dir, cfg.boundary_path, cfg.boundary_layer, none⟩

/-- Output path of `run_export_dem` (line 55). -/
def demOutPath (cfg : DemCfg) (output_path : Option PyPath) : PyPath :=
  (output_path <|> cfg.dem_tif).getD (cfg.output_dir.joinS "site_dem.tif")

/-- Result of a DEM run: output path, whether generation ran, and the
    field index handed to `qgis:tininterpolation` when it was invoked. -/
structure DemOutcome where
  out : PyPath
  generated : Bool
  interpField : Option Nat
deriving DecidableEq, Repr

/-- Embeds `dem_export.run_export_dem`: boot QGIS, resolve and normalize the
    contour source, load the contour and boundary layers, consult the
    output cache, require the processing framework, resolve the elevation
    field to an index (failing when absent), and interpolate. -/
def run_export_dem (env : QgisEnv) (cfg : DemCfg)
    (output_path : Option PyPath) (force : Bool) : Except String DemOutcome :=
  if ¬env.qgisOk then .error "QGIS is not available in this environment."
  else
    match resolve_path cfg.project_dir cfg.contour_shp with
    | none => .error "CONTOUR_SHP_PATH must be set to generate DEM."
    | some cp =>
        let contour_path := normalize_input_path env.fs cp
        if ¬env.fs contour_path then .error "Contour shapefile not found"
        else
          match load_data_layer env cfg.project_dir contour_path with
          | .error e => .error e
          | .ok contour_layer =>
              match load_boundary_layer env cfg.boundaryCfg none with
              | .error e => .error e
              | .ok _boundary_layer =>
                  let out_path := demOutPath cfg output_path
                  if env.fs out_path && !force then .ok ⟨out_path, false, none⟩
                  else if ¬env.processingOk then
                    .error "QGIS processing is not available in this environment."
                  else
                    let z_field :=
                      if cfg.contour_z_field ≠ "" then cfg.contour_z_field else "Contour"
                    let field_idx := indexFromName contour_layer.fields z_field
                    if field_idx < 0 then
                      .error ("Contour Z field not found: " ++ z_field)
                    else .ok ⟨out_path, true, some field_idx.toNat⟩

/-- Configuration consumed by `run_export_imagery`
    (from `raster_export.load_env`). -/
structure ImgCfg where
  project_dir : PyPath
  project_file : String
  subject_layer : String
  output_dir : PyPath
  qgisPref : Option PyPath
  imagery_provider : String
  wms_url : Option String
  wms_layers : Option String
  wms_format : String
  wms_crs : Option String
  xyz_url : Option String
  xyz_zmin : Option Int
  xyz_zmax : Option Int
  xyz_crs : Option String
  imagery_output_crs : Option String
  imagery_path : Option PyPath
  imagery_debug_path : Option PyPath
  boundary_path : Option PyPath
  boundary_layer : Option String
  boundary_crs : Option String
  gdalwarp_path : Option String
  gdal_translate_path : Option String
  keep_temp_imagery : Bool

/-- The boundary-cfg view of the imagery config. -/
def ImgCfg.boundaryCfg (cfg : ImgCfg) : BoundaryCfg :=
  ⟨cfg.project_dir, cfg.boundary_path, cfg.boundary_layer,
    some cfg.subject_layer⟩

/-- The boundary-path override of `run_export_imagery` (lines 323-324). -/
def imgEffCfg (cfg : ImgCfg) (boundary_path_arg : Option PyPath) : ImgCfg :=
  match boundary_path_arg with
  | some bp => { cfg with boundary_path := some bp }
  | none => cfg

/-- Output path of `run_export_imagery` (line 352). -/
def imgOutPath (cfg : ImgCfg) (output_path : Option PyPath) : PyPath :=
  (output_path <|> cfg.imagery_path).getD (cfg.output_dir.joinS "site_imagery.tif")

/-- The PNG signature `\x89PNG` as bytes. -/
def pngSig : List Nat := [0x89, 0x50, 0x4E, 0x47]

/-- The JPEG signature `\xff\xd8` as bytes. -/
def jpgSig : List Nat := [0xFF, 0xD8]

/-- The error behaviour of `raster_export.test_xyz_tile` (lines 399-434):
    nothing to do without a URL template; otherwise fetch the probe tile
    (the tile-index math of lines 412-420 is modelled separately as
    `xyzTileCode`) and fail when the connection fails, the status is not
    200, fewer than 128 of the first 256 bytes arrive, or the body starts
    with neither a PNG nor a JPEG signature.  Every failure is re-raised
    as the single network-check error. -/
def test_xyz_tile (cfg : ImgCfg) (env : QgisEnv) : Except String Unit :=
  if ¬optTruthy cfg.xyz_url then .ok ()
  else
    match env.tileFetch with
    | none => .error "XYZ tile test failed. Check URL/network access"
    | some resp =>
        if resp.status ≠ 200 then .error "XYZ tile test failed. Check URL/network access"
        else
          let data := resp.body.take 256
          if data.length < 128 then .error "XYZ tile test failed. Check URL/network access"
          else if ¬(pngSig.isPrefixOf data ∨ jpgSig.isPrefixOf data) then
            .error "XYZ tile test failed. Check URL/network access"
          else .ok ()

/-- Embeds `raster_export.clip_with_gdalwarp`: reports failure without
    running anything when `gdalwarp` is not locatable or the mask layer
    has no source; otherwise the subprocess outcome decides.  The source
    `try` catches only `subprocess.CalledProcessError` (a non-zero exit,
    returned as failure); an `OSError`/`FileNotFoundError` from launching
    the tool — reachable because an explicit `GDALWARP_PATH` override is
    returned with no existence check — propagates uncaught. -/
def clip_with_gdalwarp (env : QgisEnv) (cfg : ImgCfg) (mask_layer : Layer) :
    Except String ClipAttempt :=
  match find_gdalwarp cfg.gdalwarp_path cfg.qgisPref env.tools with
  | none => .ok ⟨false, false⟩
  | some _ =>
      if mask_layer.source = "" then .ok ⟨false, false⟩
      else
        match env.clip2Subproc with
        | .success => .ok ⟨true, env.clip2Wrote⟩
        | .calledProcessError => .ok ⟨false, env.clip2Wrote⟩
        | .osError => .error "gdalwarp invocation raised OSError"

/-- Trace of the clipping fallback chain of `run_export_imagery`
    (lines 382-392): which stages ran, whether the output file is
    present, the source's `clipped` flag, and the uncaught exception
    aborting the chain, if any. -/
structure ClipRes where
  ran1 : Bool
  ran2 : Bool
  copied : Bool
  outExists : Bool
  clippedFlag : Bool
  error : Option String
deriving DecidableEq, Repr

/-- Whether stage 2 returned success (raising counts as no success). -/
def s2ok : Except String ClipAttempt → Bool
  | .ok a => a.ok
  | .error _ => false

/-- Whether stage 2 left an output file (raising leaves none). -/
def s2wrote : Except String ClipAttempt → Bool
  | .ok a => a.wrote
  | .error _ => false

/-- Whether stage 2 raised an uncaught exception. -/
def s2raised : Except String ClipAttempt → Bool
  | .ok _ => false
  | .error _ => true

/-- The clipping fallback chain (`run_export_imagery` lines 382-392):
    run the processing clip; if it reported failure or no output file is
    present, run the gdalwarp clip; if that too reported failure or no
    output file is present, copy the unclipped raster to the output with
    `shutil.copy2`.  An uncaught exception from the gdalwarp stage
    (`s2 = .error`) or from the copy (`copyOk = false`) aborts the chain.
    `outPre` records whether a file already sat at the output path. -/
def clipChain (outPre : Bool) (s1 : ClipAttempt)
    (s2 : Except String ClipAttempt) (copyOk : Bool) : ClipRes :=
  let clipped1 := s1.ok
  let ex1 := outPre || s1.wrote
  if !clipped1 || !ex1 then
    match s2 with
    | .error e => ⟨true, true, false, ex1, false, some e⟩
    | .ok a2 =>
        let clipped2 := a2.ok
        let ex2 := ex1 || a2.wrote
        if !clipped2 || !ex2 then
          if copyOk then ⟨true, true, true, true, clipped2, none⟩
          else ⟨true, true, true, ex2, clipped2, some "shutil.copy2 raised"⟩
        else ⟨true, true, false, ex2, clipped2, none⟩
  else ⟨true, false, false, ex1, clipped1, none⟩

/-- Result of an imagery run: the output path and whether the
    acquisition/clipping work actually executed. -/
structure ImgOutcome where
  out : PyPath
  generated : Bool
deriving DecidableEq, Repr

/-- An imagery run together with its observable step trace. -/
structure ImgRun where
  probeRan : Bool
  renderRan : Bool
  clip2Ran : Bool
  copied : Bool
  result : Except String ImgOutcome

/-- Embeds `raster_export.run_export_imagery`: validate the provider settings,
    boot QGIS, optionally load the project, open the remote imagery
    layer, load and validate the boundary layer, run the tile probe for
    the xyz provider, consult the output cache (`exists && not force`
    skips), render the extent (falling back to the in-process renderer),
    then clip through the fallback chain. -/
def run_export_imagery (env : QgisEnv) (cfg0 : ImgCfg)
    (output_path boundary_path_arg : Option PyPath) (force : Bool) : ImgRun :=
  if cfg0.imagery_provider = "wms" ∧
      ¬(optTruthy cfg0.wms_url ∧ optTruthy cfg0.wms_layers) then
    ⟨false, false, false, false, .error "WMS_URL and WMS_LAYERS must be set in .env for WMS imagery."⟩
  else if cfg0.imagery_provider = "xyz" ∧ ¬optTruthy cfg0.xyz_url then
    ⟨false, false, false, false, .error "XYZ_URL must be set in .env for XYZ imagery."⟩
  else if cfg0.imagery_provider ≠ "wms" ∧ cfg0.imagery_provider ≠ "xyz" then
    ⟨false, false, false, false, .error "Unsupported IMAGERY_PROVIDER"⟩
  else if ¬env.qgisOk then
    ⟨false, false, false, false, .error "QGIS is not available in this environment."⟩
  else
    let projectRes : Except String (Option ProjEnv) :=
      if cfg0.project_file ≠ "" then
        match env.projectLoad with
        | none => .error "Failed to load QGIS project"
        | some p => .ok (some p)
      else .ok none
    match projectRes with
    | .error e => ⟨false, false, false, false, .error e⟩
    | .ok project =>
        if ¬env.serviceLayerOpens then
          ⟨false, false, false, false, .error "Failed to load imagery service layer"⟩
        else
          let cfg := imgEffCfg cfg0 boundary_path_arg
          match load_boundary_layer env cfg.boundaryCfg project with
          | .error e => ⟨false, false, false, false, .error e⟩
          | .ok none =>
              ⟨false, false, false, false,
                .error "Boundary layer not found. Set SITE_BOUNDARY_PATH or SITE_BOUNDARY_LAYER."⟩
          | .ok (some boundary_layer) =>
              let isXyz := cfg.imagery_provider = "xyz"
              let probeRes : Except String Unit :=
                if isXyz then test_xyz_tile cfg env else .ok ()
              match probeRes with
              | .error e => ⟨isXyz, false, false, false, .error e⟩
              | .ok _ =>
                  let out_path := imgOutPath cfg output_path
                  if env.fs out_path && !force then
                    ⟨isXyz, false, false, false, .ok ⟨out_path, false⟩⟩
                  else if ¬env.renderOk ∧ ¬env.fallbackOk then
                    ⟨isXyz, true, false, false, .error "Failed to write GeoTIFF"⟩
                  else
                    let s2 := clip_with_gdalwarp env cfg boundary_layer
                    let r := clipChain (env.fs out_path) env.clip1 s2 env.copyOk
                    match r.error with
                    | some e => ⟨isXyz, true, r.ran2, r.copied, .error e⟩
                    | none =>
                        if r.outExists then
                          ⟨isXyz, true, r.ran2, r.copied, .ok ⟨out_path, true⟩⟩
                        else
                          ⟨isXyz, true, r.ran2, r.copied,
                            .error "Imagery export failed to write output"⟩

/-! The tile-index math of `raster_export.test_xyz_tile` (lines 412-420)
over the reals.  Python `int()` truncates toward zero, so the code and
the floor-based slippy-map formula are compared as separate
definitions. -/

noncomputable section

/-- Python `int()` on a real: truncation toward zero. -/
def pyInt (x : ℝ) : ℤ := if 0 ≤ x then ⌊x⌋ else ⌈x⌉

/-- The tile indices computed by `test_xyz_tile` (lines 416-420):
    `int`-truncation, latitude clamped to `±85.05112878` before the
    Mercator formula. -/
def xyzTileCode (lat lon : ℝ) (z : ℕ) : ℤ × ℤ :=
  let n : ℝ := 2 ^ z
  let xtile := pyInt ((lon + 180.0) / 360.0 * n)
  let latc := max (min lat 85.05112878) (-85.05112878)
  let lat_rad := latc * Real.pi / 180
  let ytile :=
    pyInt ((1.0 - Real.log (Real.tan lat_rad + 1.0 / Real.cos lat_rad) / Real.pi)
      / 2.0 * n)
  (xtile, ytile)

/-- The standard slippy-map formula as the claim states it:
    `xtile = floor((lon+180)/360 * 2^z)`,
    `ytile = floor((1 - ln(tan lat + 1/cos lat)/pi)/2 * 2^z)`,
    latitude clamped to `±85.0511` degrees before the Mercator formula. -/
def xyzTileSpec (lat lon : ℝ) (z : ℕ) : ℤ × ℤ :=
  let n : ℝ := 2 ^ z
  let latc := max (min lat 85.0511) (-85.0511)
  let lat_rad := latc * Real.pi / 180
  (⌊(lon + 180) / 360 * n⌋,
    ⌊(1 - Real.log (Real.tan lat_rad + 1 / Real.cos lat_rad) / Real.pi) / 2 * n⌋)

end

/-! Concrete fixtures used by the witness theorems. -/

/-- File system for the C8 witness: only `data/contours.shp` exists. -/
def c8fs : FS := fun q => decide (q = ⟨false, ["data", "contours.shp"]⟩)

/-- A sample contour configuration for witnesses. -/
def c9cfg : ContourCfg where
  project_dir := ⟨true, ["proj"]⟩
  output_dir := ⟨true, ["proj", "output"]⟩
  qgisPref := none
  ogr2ogr_path := none
  gdal_data := none
  contour_shp := none
  contour_dxf := none
  contour_z_field := "Contour"
  contour_interval := none
  merge_fragments := none


/-- A layer carrying the default elevation field. -/
def wLayer : Layer := ⟨["Contour"], "src"⟩

/-- A layer without the configured elevation field. -/
def wLayerNoZ : Layer := ⟨["Elev"], "src"⟩

/-- Contour witness config: relative source, defaults everywhere else. -/
def w1cfgC : ContourCfg :=
  ⟨⟨true, ["proj"]⟩, ⟨true, ["out"]⟩, none, none, none,
    some ⟨false, ["c.shp"]⟩, none, "Contour", none, none⟩

/-- Contour witness environment: the source and the cached output exist. -/
def w1envC : SysEnv :=
  ⟨fun p => decide (p = ⟨true, ["proj", "c.shp"]⟩ ∨ p = ⟨true, ["out", "c_3d.dxf"]⟩),
    fun _ => none, true⟩

/-- DEM witness config. -/
def w1cfgD : DemCfg :=
  ⟨⟨true, ["proj"]⟩, ⟨true, ["out"]⟩, none, some ⟨false, ["c.shp"]⟩, none, none,
    none, none, "Contour"⟩

/-- DEM witness environment: source and cached output exist, the contour
    layer opens with the default field. -/
def w1envD : QgisEnv where
  fs := fun p =>
    decide (p = ⟨true, ["proj", "c.shp"]⟩ ∨ p = ⟨true, ["out", "site_dem.tif"]⟩)
  which := fun _ => none
  qgisOk := true
  layers := fun p => if p = ⟨true, ["proj", "c.shp"]⟩ then some wLayer else none
  projectLoad := none
  serviceLayerOpens := true
  serviceLayer := wLayer
  tileFetch := none
  processingOk := true
  renderOk := true
  fallbackOk := false
  clip1 := ⟨true, true⟩
  clip2Subproc := .success
  clip2Wrote := false
  copyOk := true

/-- DEM environment whose contour layer lacks the configured field and
    whose output is absent, so the run reaches the field guard. -/
def w7envD : QgisEnv where
  fs := fun p => decide (p = ⟨true, ["proj", "c.shp"]⟩)
  which := fun _ => none
  qgisOk := true
  layers := fun p => if p = ⟨true, ["proj", "c.shp"]⟩ then some wLayerNoZ else none
  projectLoad := none
  serviceLayerOpens := true
  serviceLayer := wLayerNoZ
  tileFetch := none
  processingOk := true
  renderOk := true
  fallbackOk := false
  clip1 := ⟨true, true⟩
  clip2Subproc := .success
  clip2Wrote := false
  copyOk := true

/-- DEM environment with a valid field and no cached output, so the run
    generates and invokes the interpolation. -/
def w7envOk : QgisEnv where
  fs := fun p => decide (p = ⟨true, ["proj", "c.shp"]⟩)
  which := fun _ => none
  qgisOk := true
  layers := fun p => if p = ⟨true, ["proj", "c.shp"]⟩ then some wLayer else none
  projectLoad := none
  serviceLayerOpens := true
  serviceLayer := wLayer
  tileFetch := none
  processingOk := true
  renderOk := true
  fallbackOk := false
  clip1 := ⟨true, true⟩
  clip2Subproc := .success
  clip2Wrote := false
  copyOk := true

/-- Imagery witness config: WMS provider, explicit boundary path. -/
def w1cfgI : ImgCfg where
  project_dir := ⟨true, ["proj"]⟩
  project_file := ""
  subject_layer := ""
  output_dir := ⟨true, ["out"]⟩
  qgisPref := none
  imagery_provider := "wms"
  wms_url := some "https://wms.example/service"
  wms_layers := some "base"
  wms_format := "image/jpeg"
  wms_crs := none
  xyz_url := none
  xyz_zmin := none
  xyz_zmax := none
  xyz_crs := none
  imagery_output_crs := none
  imagery_path := none
  imagery_debug_path := none
  boundary_path := some ⟨false, ["b.shp"]⟩
  boundary_layer := none
  boundary_crs := none
  gdalwarp_path := none
  gdal_translate_path := none
  keep_temp_imagery := false

/-- Imagery witness environment: boundary layer and cached output exist. -/
def w1envI : QgisEnv where
  fs := fun p =>
    decide (p = ⟨true, ["proj", "b.shp"]⟩ ∨ p = ⟨true, ["out", "site_imagery.tif"]⟩)
  which := fun _ => none
  qgisOk := true
  layers := fun p => if p = ⟨true, ["proj", "b.shp"]⟩ then some wLayer else none
  projectLoad := none
  serviceLayerOpens := true
  serviceLayer := wLayer
  tileFetch := none
  processingOk := true
  renderOk := true
  fallbackOk := false
  clip1 := ⟨true, true⟩
  clip2Subproc := .success
  clip2Wrote := false
  copyOk := true

/-- Imagery config for the xyz provider. -/
def w6cfgI : ImgCfg :=
  { w1cfgI with
      imagery_provider := "xyz"
      wms_url := none
      wms_layers := none
      xyz_url := some "https://tiles.example/osm" }

/-- A healthy tile response: 200, a PNG body of more than 128 bytes. -/
def wTileOk : TileResp := ⟨200, pngSig ++ List.replicate 140 0⟩

/-- A failing tile response: HTTP 404. -/
def wTileBad : TileResp := ⟨404, List.replicate 140 0⟩

/-- xyz imagery environment with a healthy tile probe response. -/
def w6envOk : QgisEnv := { w1envI with tileFetch := some wTileOk }

/-- xyz imagery environment whose tile probe returns HTTP 404. -/
def w6envBad : QgisEnv := { w1envI with tileFetch := some wTileBad }

/-- Imagery config with an explicit gdalwarp override; `find_gdalwarp`
    returns it with no existence check. -/
def c3cfg : ImgCfg := { w1cfgI with gdalwarp_path := some "/nonexistent/gdalwarp" }

/-- Environment for the C3 counterexample: the processing clip fails,
    the output path is empty, and launching gdalwarp raises an uncaught
    `OSError` because the override path does not exist. -/
def c3env : QgisEnv :=
  { w1envI with
      fs := fun p => decide (p = ⟨true, ["proj", "b.shp"]⟩)
      clip1 := ⟨false, false⟩
      clip2Subproc := .osError }

/-! Theorems settling the claims. -/

/-- Joining a single clause with `String.intercalate` is that clause. -/
theorem intercalate_singleton (sep s : String) : String.intercalate sep [s] = s := rfl

/-- C8: `normalize_input_path` returns the sibling `.shp` path exactly when
    the input path's suffix is `.shx` case-insensitively and the sibling
    `.shp` file exists; in every other case (in particular when the input
    does not exist at all) it returns the input unchanged, and it is a
    total function, so no error is raised. -/
theorem claim_C8_normalize_input_path (fs : FS) (p : PyPath) :
    (strLower p.suffix = ".shx" ∧ fs (p.withSuffix ".shp") = true →
      normalize_input_path fs p = p.withSuffix ".shp") ∧
    (¬(strLower p.suffix = ".shx" ∧ fs (p.withSuffix ".shp") = true) →
      normalize_input_path fs p = p) := by
  unfold normalize_input_path
  constructor
  · rintro ⟨h1, h2⟩
    simp [h1, h2]
  · intro h
    by_cases h1 : strLower p.suffix = ".shx"
    · have h2 : fs (p.withSuffix ".shp") = false := by
        cases hb : fs (p.withSuffix ".shp") with
        | true => exact absurd ⟨h1, hb⟩ h
        | false => rfl
      simp [h1, h2]
    · simp [h1]

/-- C8 witness: an index file with an existing sibling is redirected to
    the sibling, and a non-index path is returned unchanged. -/
theorem claim_C8_witness :
    normalize_input_path c8fs ⟨false, ["data", "contours.shx"]⟩ =
      PyPath.withSuffix ⟨false, ["data", "contours.shx"]⟩ ".shp" ∧
    normalize_input_path c8fs ⟨false, ["data", "contours.txt"]⟩ =
      ⟨false, ["data", "contours.txt"]⟩ :=
  ⟨(claim_C8_normalize_input_path c8fs ⟨false, ["data", "contours.shx"]⟩).1 (by decide),
   (claim_C8_normalize_input_path c8fs ⟨false, ["data", "contours.txt"]⟩).2 (by decide)⟩

/-- C2 counterexample: the claim reads "when an interval is set and merge
    is false, the result is a non-grouped SELECT whose only filter keeps
    rows near multiples of the interval" — but the interval `0.0` is set
    (not `None`) and Python truthiness makes `build_sql` return no query
    at all. -/
theorem claim_C2_counterexample :
    build_sql "contours" "Contour" (some 0) false = none := by decide

/-- C2 (amended: a *nonzero* interval with merge off yields the filtered
    non-grouped SELECT; no interval with merge on yields the grouped
    merge query with no filter; neither yields no query). -/
theorem claim_C2_build_sql (layer_name z_field : String) (i : ℚ) :
    (i ≠ 0 →
      build_sql layer_name z_field (some i) false =
        some ("SELECT * FROM " ++ layer_name ++ " WHERE " ++
          ("ABS((" ++ z_field ++ " / " ++ pyFloatRepr i ++ ") - ROUND(" ++
            z_field ++ " / " ++ pyFloatRepr i ++ ")) < 1e-6"))) ∧
    build_sql layer_name z_field none true =
      some ("SELECT ST_LineMerge(ST_Collect(geometry)) AS geometry, " ++ z_field ++
        " FROM " ++ layer_name ++ " GROUP BY " ++ z_field) ∧
    build_sql layer_name z_field none false = none := by
  refine ⟨fun hi => ?_, ?_, ?_⟩
  · have ht : qTruthy (some i) = true := by simp [qTruthy, hi]
    simp only [build_sql, ht, Option.getD_some, Bool.true_or, not_true_eq_false,
      if_false, reduceIte, intercalate_singleton]
    simp [String.append_assoc]
  · simp [build_sql, qTruthy]
  · simp [build_sql, qTruthy]

/-- C2 witness: the amended claim instantiated at interval `1.0`. -/
theorem claim_C2_witness :
    build_sql "contours" "Contour" (some 1) false =
      some "SELECT * FROM contours WHERE ABS((Contour / 1.0) - ROUND(Contour / 1.0)) < 1e-6" := by
  have h := (claim_C2_build_sql "contours" "Contour" 1).1 (by norm_num)
  rw [h]
  rfl

/-- The locator `findTool` agrees with the spec-worded locator. -/
theorem findTool_eq_locateSpec (tool : String) (explicit_path : Option String)
    (qgisPref : Option PyPath) (env : ToolEnv) :
    findTool tool explicit_path qgisPref env =
      locateSpec tool explicit_path qgisPref env := by
  unfold findTool locateSpec firstExisting
  by_cases he : optTruthy explicit_path
  · simp [he]
  · simp only [he, if_false, Bool.false_eq_true]
    by_cases hw : optTruthy (env.which tool)
    · simp [hw]
    · simp only [hw, if_false, Bool.false_eq_true]
      cases qgisPref with
      | none => rfl
      | some pref =>
          simp only []
          by_cases hmac : env.fs ((pref.joinS "bin").joinS tool)
          · simp [hmac, List.find?]
          · simp only [hmac, Bool.false_eq_true, if_false]
            by_cases happs : pref.name = "qgis" ∧ pref.parent.name = "apps"
            · by_cases hwin : env.fs ((pref.parent.parent.joinS "bin").joinS (tool ++ ".exe"))
              · simp [happs, hwin, hmac, List.find?]
              · by_cases hnix : env.fs ((pref.parent.parent.joinS "bin").joinS tool)
                · simp [happs, hwin, hnix, hmac, List.find?]
                · simp [happs, hwin, hnix, hmac, List.find?]
            · simp [happs, hmac, List.find?]

/-- C5: each of the three tool locators resolves as the spec describes —
    explicit override unconditionally (independent of the file system and
    with no existence check), else the PATH lookup, else the first existing
    candidate among the bundled layout `prefix/bin/tool` and (for an
    `apps/qgis` prefix) `root/bin/tool.exe` then `root/bin/tool`, else
    nothing. -/
theorem claim_C5_tool_location (explicit_path : Option String)
    (qgisPref : Option PyPath) (env : ToolEnv) :
    find_ogr2ogr explicit_path qgisPref env =
      locateSpec "ogr2ogr" explicit_path qgisPref env ∧
    find_gdalwarp explicit_path qgisPref env =
      locateSpec "gdalwarp" explicit_path qgisPref env ∧
    find_gdal_translate explicit_path qgisPref env =
      locateSpec "gdal_translate" explicit_path qgisPref env :=
  ⟨findTool_eq_locateSpec _ _ _ _, findTool_eq_locateSpec _ _ _ _,
    findTool_eq_locateSpec _ _ _ _⟩

/-- C9: path resolution (`resolve_path` and the inline contour-input
    resolution) root-joins a relative path, leaves an absolute path
    unchanged, always yields an absolute path (for an absolute project
    root), consults no file system, and resolves `None` to nothing. -/
theorem claim_C9_resolve_path (root c : PyPath) (cfg : ContourCfg)
    (hroot : root.isAbsolute = true) (hcfg : cfg.project_dir.isAbsolute = true) :
    resolve_path root none = none ∧
    (c.isAbsolute = true →
      resolve_path root (some c) = some c ∧ contour_in_candidate cfg c = c) ∧
    (c.isAbsolute = false →
      resolve_path root (some c) = some (root.join c) ∧
      contour_in_candidate cfg c = cfg.project_dir.join c) ∧
    (∀ r, resolve_path root (some c) = some r → r.isAbsolute = true) ∧
    (contour_in_candidate cfg c).isAbsolute = true := by
  refine ⟨rfl, fun habs => ?_, fun hrel => ?_, fun r hr => ?_, ?_⟩
  · simp [resolve_path, contour_in_candidate, habs]
  · simp [resolve_path, contour_in_candidate, hrel, PyPath.join]
  · simp only [resolve_path, Option.some.injEq] at hr
    subst hr
    by_cases habs : c.isAbsolute
    · simp [habs]
    · simp [habs, PyPath.join, hroot]
  · unfold contour_in_candidate
    by_cases habs : c.isAbsolute
    · simp [habs]
    · simp [habs, PyPath.join, hcfg]

/-- C9 witness: the theorem applied at an absolute root with a relative
    and an absolute input. -/
theorem claim_C9_witness :
    resolve_path ⟨true, ["proj"]⟩ (some ⟨false, ["data", "c.shp"]⟩) =
      some (PyPath.join ⟨true, ["proj"]⟩ ⟨false, ["data", "c.shp"]⟩) ∧
    resolve_path ⟨true, ["proj"]⟩ (some ⟨true, ["abs", "c.shp"]⟩) =
      some ⟨true, ["abs", "c.shp"]⟩ ∧
    (contour_in_candidate c9cfg ⟨false, ["data", "c.shp"]⟩).isAbsolute = true :=
  ⟨((claim_C9_resolve_path ⟨true, ["proj"]⟩ ⟨false, ["data", "c.shp"]⟩ c9cfg
      (by decide) (by decide)).2.2.1 (by decide)).1,
   ((claim_C9_resolve_path ⟨true, ["proj"]⟩ ⟨true, ["abs", "c.shp"]⟩ c9cfg
      (by decide) (by decide)).2.1 (by decide)).1,
   (claim_C9_resolve_path ⟨true, ["proj"]⟩ ⟨false, ["data", "c.shp"]⟩ c9cfg
      (by decide) (by decide)).2.2.2.2⟩

/-- C3 counterexample: with the processing clip failing, an explicit
    gdalwarp override (returned by `find_gdalwarp` with no existence
    check) whose launch raises an uncaught `OSError`, the chain aborts
    with no output file at the requested path, and the whole imagery run
    errors — refuting "the chain always yields an output file at the
    requested path". -/
theorem claim_C3_counterexample :
    (clipChain false ⟨false, false⟩ (clip_with_gdalwarp c3env c3cfg wLayer)
        c3env.copyOk).outExists = false ∧
    (clipChain false ⟨false, false⟩ (clip_with_gdalwarp c3env c3cfg wLayer)
        c3env.copyOk).error = some "gdalwarp invocation raised OSError" ∧
    (run_export_imagery c3env c3cfg none none true).result =
      .error "gdalwarp invocation raised OSError" := by decide

/-- C3 (amended: the stage ordering is as claimed, and the chain leaves
    an output file whenever it completes without an uncaught error; but
    only non-zero gdalwarp exits are caught, so an error launching
    gdalwarp — reachable through the unchecked explicit override — or a
    failing final copy aborts the chain, possibly with no output). -/
theorem claim_C3_clip_fallback_chain (outPre : Bool) (s1 : ClipAttempt)
    (s2 : Except String ClipAttempt) (copyOk : Bool) :
    (clipChain outPre s1 s2 copyOk).ran1 = true ∧
    (clipChain outPre s1 s2 copyOk).ran2 = !(s1.ok && (outPre || s1.wrote)) ∧
    (clipChain outPre s1 s2 copyOk).copied =
      ((clipChain outPre s1 s2 copyOk).ran2 && !(s2raised s2) &&
        !(s2ok s2 && (outPre || s1.wrote || s2wrote s2))) ∧
    (s1.ok && (outPre || s1.wrote) = true →
      (clipChain outPre s1 s2 copyOk).ran2 = false ∧
      (clipChain outPre s1 s2 copyOk).copied = false ∧
      (clipChain outPre s1 s2 copyOk).error = none) ∧
    ((clipChain outPre s1 s2 copyOk).error = none →
      (clipChain outPre s1 s2 copyOk).outExists = true) ∧
    ((clipChain outPre s1 s2 copyOk).ran2 = true → s2raised s2 = true →
      (clipChain outPre s1 s2 copyOk).copied = false ∧
      (clipChain outPre s1 s2 copyOk).outExists = (outPre || s1.wrote) ∧
      (clipChain outPre s1 s2 copyOk).error ≠ none) ∧
    ((clipChain outPre s1 s2 copyOk).copied = true → copyOk = false →
      (clipChain outPre s1 s2 copyOk).error ≠ none) := by
  rcases s1 with ⟨a1, w1⟩
  rcases s2 with e | ⟨a2, w2⟩
  · rcases outPre <;> rcases a1 <;> rcases w1 <;> rcases copyOk <;>
      simp [clipChain, s2ok, s2wrote, s2raised]
  · revert copyOk
    revert outPre
    revert a1 w1 a2 w2
    decide

/-- C3 witness: a first stage that succeeds and writes short-circuits the
    rest of the chain; a fully failing but non-raising chain still leaves
    an output via the verbatim copy. -/
theorem claim_C3_witness :
    ((clipChain false ⟨true, true⟩ (.ok ⟨false, false⟩) true).ran2 = false ∧
      (clipChain false ⟨true, true⟩ (.ok ⟨false, false⟩) true).copied = false ∧
      (clipChain false ⟨true, true⟩ (.ok ⟨false, false⟩) true).error = none) ∧
    (clipChain false ⟨false, false⟩ (.ok ⟨false, false⟩) true).outExists = true :=
  ⟨(claim_C3_clip_fallback_chain false ⟨true, true⟩ (.ok ⟨false, false⟩)
      true).2.2.2.1 (by decide),
   (claim_C3_clip_fallback_chain false ⟨false, false⟩ (.ok ⟨false, false⟩)
      true).2.2.2.2.1 (by decide)⟩

/-- A nonnegative `indexFromName` result is the position of the field. -/
theorem indexFromName_get (l : List String) (n : String) (k : Int)
    (hk : indexFromName l n = k) (h0 : 0 ≤ k) : l.get? k.toNat = some n := by
  induction l generalizing k with
  | nil =>
      rw [indexFromName] at hk
      omega
  | cons f rest ih =>
      rw [indexFromName] at hk
      by_cases hf : f = n
      · rw [if_pos hf] at hk
        subst hf
        have : k.toNat = 0 := by omega
        rw [this]
        simp
      · rw [if_neg hf] at hk
        simp only at hk
        by_cases hr : indexFromName rest n < 0
        · rw [if_pos hr] at hk
          omega
        · rw [if_neg hr] at hk
          push_neg at hr
          have hrec := ih (indexFromName rest n) rfl hr
          have hsucc : k.toNat = (indexFromName rest n).toNat + 1 := by omega
          rw [hsucc]
          simpa using hrec

/-- The boundary-path override changes no field but the boundary path. -/
@[simp] theorem imgEffCfg_provider (cfg : ImgCfg) (b : Option PyPath) :
    (imgEffCfg cfg b).imagery_provider = cfg.imagery_provider := by
  cases b <;> rfl

@[simp] theorem imgEffCfg_xyz_url (cfg : ImgCfg) (b : Option PyPath) :
    (imgEffCfg cfg b).xyz_url = cfg.xyz_url := by
  cases b <;> rfl

@[simp] theorem imgEffCfg_wms_url (cfg : ImgCfg) (b : Option PyPath) :
    (imgEffCfg cfg b).wms_url = cfg.wms_url := by
  cases b <;> rfl

@[simp] theorem imgEffCfg_wms_layers (cfg : ImgCfg) (b : Option PyPath) :
    (imgEffCfg cfg b).wms_layers = cfg.wms_layers := by
  cases b <;> rfl

@[simp] theorem imgEffCfg_project_file (cfg : ImgCfg) (b : Option PyPath) :
    (imgEffCfg cfg b).project_file = cfg.project_file := by
  cases b <;> rfl

/-- The contour cache gate: provided the input resolves, the run returns
    the output path without generating exactly when the output exists and
    force is off. -/
theorem contour_cache_gate (env : SysEnv) (cfg : ContourCfg)
    (ip op : Option PyPath) (zf : String) (ci : Option ℚ) (mf : Option Bool)
    (force : Bool) (in_path : PyPath)
    (h : contourResolveInput env.fs cfg ip = .ok in_path) :
    (run_export_contours env cfg ip op zf ci mf force =
        .ok ⟨contourOutPath cfg op in_path, false, none⟩) ↔
      (env.fs (contourOutPath cfg op in_path) = true ∧ force = false) := by
  unfold run_export_contours
  rw [h]
  cases hfs : env.fs (contourOutPath cfg op in_path) <;> cases force <;>
      simp only [hfs, Bool.not_true, Bool.not_false, Bool.true_and, Bool.false_and,
        Bool.and_true, Bool.and_false, if_true, if_false, Bool.false_eq_true,
        Bool.true_eq_false, and_false, and_true, and_self, iff_true, iff_false,
        reduceIte]
  · cases hf : find_ogr2ogr cfg.ogr2ogr_path cfg.qgisPref env.tools <;>
      cases hs : env.subprocessOk <;> simp
  · cases hf : find_ogr2ogr cfg.ogr2ogr_path cfg.qgisPref env.tools <;>
      cases hs : env.subprocessOk <;> simp [hs]
  · cases hf : find_ogr2ogr cfg.ogr2ogr_path cfg.qgisPref env.tools <;>
      cases hs : env.subprocessOk <;> simp [hs]

/-- The DEM cache gate: provided QGIS boots and the inputs resolve and
    load, the run returns the output path without generating exactly when
    the output exists and force is off. -/
theorem dem_cache_gate (env : QgisEnv) (cfg : DemCfg) (op : Option PyPath)
    (force : Bool) (cp : PyPath) (cl : Layer) (bl : Option Layer)
    (hq : env.qgisOk = true)
    (hr : resolve_path cfg.project_dir cfg.contour_shp = some cp)
    (hfs : env.fs (normalize_input_path env.fs cp) = true)
    (hl : load_data_layer env cfg.project_dir (normalize_input_path env.fs cp) = .ok cl)
    (hb : load_boundary_layer env cfg.boundaryCfg none = .ok bl) :
    (run_export_dem env cfg op force = .ok ⟨demOutPath cfg op, false, none⟩) ↔
      (env.fs (demOutPath cfg op) = true ∧ force = false) := by
  unfold run_export_dem
  rw [hq, hr]
  simp only [Bool.true_eq_false, not_true_eq_false, if_false, hfs, hl, hb, reduceIte]
  cases hfso : env.fs (demOutPath cfg op) <;> cases force <;>
      simp only [hfso, Bool.not_true, Bool.not_false, Bool.true_and, Bool.false_and,
        Bool.and_true, Bool.and_false, if_true, if_false, Bool.false_eq_true,
        Bool.true_eq_false, and_false, and_true, and_self, iff_true, iff_false,
        reduceIte]
  · cases hp : env.processingOk <;> ((repeat' split) <;> simp_all)
  · cases hp : env.processingOk <;> ((repeat' split) <;> simp_all)
  · cases hp : env.processingOk <;> ((repeat' split) <;> simp_all)

/-- The imagery cache gate: provided the provider settings validate, QGIS
    boots, no project file is set, the service layer opens, the boundary
    layer loads, and (for the xyz provider) the tile probe passes, the run
    returns the output path without generating exactly when the output
    exists and force is off. -/
theorem img_cache_gate (env : QgisEnv) (cfg0 : ImgCfg) (op barg : Option PyPath)
    (force : Bool) (bl : Layer)
    (h1 : ¬(cfg0.imagery_provider = "wms" ∧
        ¬(optTruthy cfg0.wms_url ∧ optTruthy cfg0.wms_layers)))
    (h2 : ¬(cfg0.imagery_provider = "xyz" ∧ ¬optTruthy cfg0.xyz_url))
    (h3 : ¬(cfg0.imagery_provider ≠ "wms" ∧ cfg0.imagery_provider ≠ "xyz"))
    (hq : env.qgisOk = true)
    (hpf : cfg0.project_file = "")
    (hsl : env.serviceLayerOpens = true)
    (hb : load_boundary_layer env (imgEffCfg cfg0 barg).boundaryCfg none =
      .ok (some bl))
    (hprobe : cfg0.imagery_provider = "xyz" →
      test_xyz_tile (imgEffCfg cfg0 barg) env = .ok ()) :
    ((run_export_imagery env cfg0 op barg force).result =
        .ok ⟨imgOutPath (imgEffCfg cfg0 barg) op, false⟩) ↔
      (env.fs (imgOutPath (imgEffCfg cfg0 barg) op) = true ∧ force = false) := by
  unfold run_export_imagery
  rw [if_neg h1, if_neg h2, if_neg h3]
  simp only [hq, not_true_eq_false, if_false, hpf, ne_eq, not_true_eq_false,
    not_false_eq_true, reduceIte, hsl, hb]
  by_cases hx : (imgEffCfg cfg0 barg).imagery_provider = "xyz"
  · rw [if_pos hx, hprobe (by simpa using hx)]
    simp only []
    cases hfs : env.fs (imgOutPath (imgEffCfg cfg0 barg) op) <;> cases force <;>
        simp_all <;>
      by_cases hr : env.renderOk = false ∧ env.fallbackOk = false <;>
        simp only [hr] <;> (repeat' split) <;> simp_all
  · rw [if_neg hx]
    simp only []
    cases hfs : env.fs (imgOutPath (imgEffCfg cfg0 barg) op) <;> cases force <;>
        simp_all <;>
      by_cases hr : env.renderOk = false ∧ env.fallbackOk = false <;>
        simp only [hr] <;> (repeat' split) <;> simp_all

/-- C1: for every producer (contour export, imagery export, DEM export),
    provided the steps before the cache gate succeed, the run skips
    generation and returns the existing output path exactly when the
    target output exists and force is off; with force on (or a missing
    output) the generation step is attempted. -/
theorem claim_C1_cache_gate
    (envC : SysEnv) (cfgC : ContourCfg) (ip opC : Option PyPath) (zfC : String)
    (ci : Option ℚ) (mf : Option Bool) (forceC : Bool) (in_path : PyPath)
    (envD : QgisEnv) (cfgD : DemCfg) (opD : Option PyPath) (forceD : Bool)
    (cp : PyPath) (cl : Layer) (blD : Option Layer)
    (envI : QgisEnv) (cfgI : ImgCfg) (opI bargI : Option PyPath) (forceI : Bool)
    (blI : Layer) :
    (contourResolveInput envC.fs cfgC ip = .ok in_path →
      ((run_export_contours envC cfgC ip opC zfC ci mf forceC =
          .ok ⟨contourOutPath cfgC opC in_path, false, none⟩) ↔
        (envC.fs (contourOutPath cfgC opC in_path) = true ∧ forceC = false))) ∧
    (envD.qgisOk = true →
      resolve_path cfgD.project_dir cfgD.contour_shp = some cp →
      envD.fs (normalize_input_path envD.fs cp) = true →
      load_data_layer envD cfgD.project_dir (normalize_input_path envD.fs cp) =
        .ok cl →
      load_boundary_layer envD cfgD.boundaryCfg none = .ok blD →
      ((run_export_dem envD cfgD opD forceD =
          .ok ⟨demOutPath cfgD opD, false, none⟩) ↔
        (envD.fs (demOutPath cfgD opD) = true ∧ forceD = false))) ∧
    (¬(cfgI.imagery_provider = "wms" ∧
        ¬(optTruthy cfgI.wms_url ∧ optTruthy cfgI.wms_layers)) →
      ¬(cfgI.imagery_provider = "xyz" ∧ ¬optTruthy cfgI.xyz_url) →
      ¬(cfgI.imagery_provider ≠ "wms" ∧ cfgI.imagery_provider ≠ "xyz") →
      envI.qgisOk = true → cfgI.project_file = "" →
      envI.serviceLayerOpens = true →
      load_boundary_layer envI (imgEffCfg cfgI bargI).boundaryCfg none =
        .ok (some blI) →
      (cfgI.imagery_provider = "xyz" →
        test_xyz_tile (imgEffCfg cfgI bargI) envI = .ok ()) →
      (((run_export_imagery envI cfgI opI bargI forceI).result =
          .ok ⟨imgOutPath (imgEffCfg cfgI bargI) opI, false⟩) ↔
        (envI.fs (imgOutPath (imgEffCfg cfgI bargI) opI) = true ∧
          forceI = false))) :=
  ⟨fun h => contour_cache_gate envC cfgC ip opC zfC ci mf forceC in_path h,
   fun hq hr hfs hl hb => dem_cache_gate envD cfgD opD forceD cp cl blD hq hr hfs hl hb,
   fun h1 h2 h3 hq hpf hsl hb hp =>
     img_cache_gate envI cfgI opI bargI forceI blI h1 h2 h3 hq hpf hsl hb hp⟩

/-- C1 witness: all three cache gates instantiated on concrete runs whose
    cached outputs exist. -/
theorem claim_C1_witness :
    ((run_export_contours w1envC w1cfgC none none "Contour" none none false =
        .ok ⟨contourOutPath w1cfgC none ⟨true, ["proj", "c.shp"]⟩, false, none⟩) ↔
      (w1envC.fs (contourOutPath w1cfgC none ⟨true, ["proj", "c.shp"]⟩) = true ∧
        false = false)) ∧
    ((run_export_dem w1envD w1cfgD none false =
        .ok ⟨demOutPath w1cfgD none, false, none⟩) ↔
      (w1envD.fs (demOutPath w1cfgD none) = true ∧ false = false)) ∧
    (((run_export_imagery w1envI w1cfgI none none false).result =
        .ok ⟨imgOutPath (imgEffCfg w1cfgI none) none, false⟩) ↔
      (w1envI.fs (imgOutPath (imgEffCfg w1cfgI none) none) = true ∧
        false = false)) :=
  ⟨(claim_C1_cache_gate w1envC w1cfgC none none "Contour" none none false
      ⟨true, ["proj", "c.shp"]⟩ w1envD w1cfgD none false ⟨true, ["proj", "c.shp"]⟩
      wLayer none w1envI w1cfgI none none false wLayer).1 (by decide),
   (claim_C1_cache_gate w1envC w1cfgC none none "Contour" none none false
      ⟨true, ["proj", "c.shp"]⟩ w1envD w1cfgD none false ⟨true, ["proj", "c.shp"]⟩
      wLayer none w1envI w1cfgI none none false wLayer).2.1 (by decide) (by decide)
      (by decide) (by decide) (by decide),
   (claim_C1_cache_gate w1envC w1cfgC none none "Contour" none none false
      ⟨true, ["proj", "c.shp"]⟩ w1envD w1cfgD none false ⟨true, ["proj", "c.shp"]⟩
      wLayer none w1envI w1cfgI none none false wLayer).2.2 (by decide) (by decide)
      (by decide) (by decide) (by decide) (by decide) (by decide) (by decide)⟩

/-- C7: standalone DEM generation resolves the configured elevation field
    to an index on the contour layer; when the field is absent the run
    fails with an error naming the field before the interpolation routine
    runs, and whenever the interpolation routine is invoked its field
    index is a valid index of that field. -/
theorem claim_C7_dem_field_guard (env : QgisEnv) (cfg : DemCfg)
    (op : Option PyPath) (force : Bool) (cp : PyPath) (cl : Layer)
    (bl : Option Layer)
    (hq : env.qgisOk = true)
    (hr : resolve_path cfg.project_dir cfg.contour_shp = some cp)
    (hfs : env.fs (normalize_input_path env.fs cp) = true)
    (hl : load_data_layer env cfg.project_dir (normalize_input_path env.fs cp) =
      .ok cl)
    (hb : load_boundary_layer env cfg.boundaryCfg none = .ok bl) :
    ((env.fs (demOutPath cfg op) && !force) = false → env.processingOk = true →
      indexFromName cl.fields
          (if cfg.contour_z_field ≠ "" then cfg.contour_z_field else "Contour") < 0 →
      run_export_dem env cfg op force =
        .error ("Contour Z field not found: " ++
          (if cfg.contour_z_field ≠ "" then cfg.contour_z_field else "Contour"))) ∧
    (∀ o i, run_export_dem env cfg op force = .ok o → o.interpField = some i →
      cl.fields.get? i =
          some (if cfg.contour_z_field ≠ "" then cfg.contour_z_field else "Contour") ∧
      indexFromName cl.fields
          (if cfg.contour_z_field ≠ "" then cfg.contour_z_field else "Contour") =
        (i : Int)) := by
  constructor
  · intro hgate hp hidx
    unfold run_export_dem
    rw [hq, hr]
    simp only [Bool.true_eq_false, not_true_eq_false, if_false, hfs, hl, hb,
      reduceIte, hgate, hp, hidx, not_false_eq_true, if_true]
    simp
  · intro o i hrun hint
    unfold run_export_dem at hrun
    rw [hq, hr] at hrun
    simp only [Bool.true_eq_false, not_true_eq_false, if_false, hfs, hl, hb,
      reduceIte] at hrun
    by_cases hgate : (env.fs (demOutPath cfg op) && !force) = true
    · rw [if_pos hgate] at hrun
      cases hrun
      simp at hint
    · rw [if_neg hgate] at hrun
      by_cases hp : env.processingOk
      · simp only [hp, not_true_eq_false, if_false] at hrun
        by_cases hidx : indexFromName cl.fields
            (if cfg.contour_z_field ≠ "" then cfg.contour_z_field else "Contour") < 0
        · rw [if_pos hidx] at hrun
          exact absurd hrun (by simp)
        · rw [if_neg hidx] at hrun
          cases hrun
          simp only [DemOutcome.mk.injEq] at hint ⊢
          push_neg at hidx
          have hi : i = (indexFromName cl.fields
              (if cfg.contour_z_field ≠ "" then cfg.contour_z_field else "Contour")).toNat := by
            simpa using hint.symm
          subst hi
          refine ⟨indexFromName_get _ _ _ rfl hidx, ?_⟩
          omega
      · simp only [hp, not_false_eq_true, if_true] at hrun
        exact absurd hrun (by simp)

/-- C7 witness: a missing field fails with the naming error; a present
    field reaches interpolation with the valid index 0. -/
theorem claim_C7_witness :
    run_export_dem w7envD w1cfgD none false =
      .error "Contour Z field not found: Contour" ∧
    (wLayer.fields.get? 0 = some "Contour" ∧
      indexFromName wLayer.fields "Contour" = 0) :=
  ⟨by
    have h := (claim_C7_dem_field_guard w7envD w1cfgD none false
      ⟨true, ["proj", "c.shp"]⟩ wLayerNoZ none (by decide) (by decide) (by decide)
      (by decide) (by decide)).1 (by decide) (by decide) (by decide)
    simpa using h,
   by
    have h := (claim_C7_dem_field_guard w7envOk w1cfgD none false
      ⟨true, ["proj", "c.shp"]⟩ wLayer none (by decide) (by decide) (by decide)
      (by decide) (by decide)).2 ⟨demOutPath w1cfgD none, true, some 0⟩ 0
      (by decide) rfl
    simpa using h⟩


/-- C6: for the xyz provider (with the pre-probe steps succeeding and a
    connection established), the probe passes exactly when the response
    is HTTP 200 with at least 128 of the first 256 bytes read and a PNG
    or JPEG signature; the probe runs, and the run aborts with an error
    before any rendering exactly when the probe fails. -/
theorem claim_C6_xyz_probe (env : QgisEnv) (cfg0 : ImgCfg) (op barg : Option PyPath)
    (force : Bool) (bl : Layer) (resp : TileResp)
    (hprov : cfg0.imagery_provider = "xyz")
    (hurl : optTruthy cfg0.xyz_url = true)
    (hq : env.qgisOk = true) (hpf : cfg0.project_file = "")
    (hsl : env.serviceLayerOpens = true)
    (hb : load_boundary_layer env (imgEffCfg cfg0 barg).boundaryCfg none =
      .ok (some bl))
    (hf : env.tileFetch = some resp) :
    (test_xyz_tile (imgEffCfg cfg0 barg) env = .ok () ↔
      (resp.status = 200 ∧ ¬(resp.body.take 256).length < 128 ∧
        (pngSig.isPrefixOf (resp.body.take 256) ∨
          jpgSig.isPrefixOf (resp.body.take 256)))) ∧
    (run_export_imagery env cfg0 op barg force).probeRan = true ∧
    (((run_export_imagery env cfg0 op barg force).renderRan = false ∧
        ∃ e, (run_export_imagery env cfg0 op barg force).result = .error e) ↔
      ¬(resp.status = 200 ∧ ¬(resp.body.take 256).length < 128 ∧
        (pngSig.isPrefixOf (resp.body.take 256) ∨
          jpgSig.isPrefixOf (resp.body.take 256)))) := by
  have h1 : ¬(cfg0.imagery_provider = "wms" ∧
      ¬(optTruthy cfg0.wms_url ∧ optTruthy cfg0.wms_layers)) := by
    simp [hprov]
  have h2 : ¬(cfg0.imagery_provider = "xyz" ∧ ¬optTruthy cfg0.xyz_url) := by
    simp [hprov, hurl]
  have h3 : ¬(cfg0.imagery_provider ≠ "wms" ∧ cfg0.imagery_provider ≠ "xyz") := by
    simp [hprov]
  have hx : (imgEffCfg cfg0 barg).imagery_provider = "xyz" := by
    simp [hprov]
  have hiff : test_xyz_tile (imgEffCfg cfg0 barg) env = .ok () ↔
      (resp.status = 200 ∧ ¬(resp.body.take 256).length < 128 ∧
        (pngSig.isPrefixOf (resp.body.take 256) ∨
          jpgSig.isPrefixOf (resp.body.take 256))) := by
    unfold test_xyz_tile
    rw [imgEffCfg_xyz_url, hurl]
    dsimp only
    rw [if_neg (by simp), hf]
    dsimp only
    constructor
    · intro h
      by_cases h200 : resp.status = 200
      · by_cases hlen : (resp.body.take 256).length < 128
        · rw [if_neg (by simp [h200]), if_pos hlen] at h
          exact absurd h (by simp)
        · by_cases hsig : pngSig.isPrefixOf (resp.body.take 256) = true ∨
              jpgSig.isPrefixOf (resp.body.take 256) = true
          · exact ⟨h200, hlen, hsig⟩
          · rw [if_neg (by simp [h200]), if_neg hlen, if_pos hsig] at h
            exact absurd h (by simp)
      · rw [if_pos h200] at h
        exact absurd h (by simp)
    · rintro ⟨h200, hlen, hsig⟩
      rw [if_neg (by simp [h200]), if_neg hlen, if_neg (not_not_intro hsig)]
  refine ⟨hiff, ?_, ?_⟩ <;>
    (unfold run_export_imagery
     rw [if_neg h1, if_neg h2, if_neg h3]
     simp only [hq, not_true_eq_false, if_false, hpf, ne_eq,
       not_false_eq_true, reduceIte, hsl, hb]
     rw [if_pos hx])
  · cases hp : test_xyz_tile (imgEffCfg cfg0 barg) env with
    | error e => simp [hx, hprov]
    | ok u => (repeat' split) <;> simp [hx, hprov]
  · cases hp : test_xyz_tile (imgEffCfg cfg0 barg) env with
    | error e =>
        have hbad : ¬(resp.status = 200 ∧ ¬(resp.body.take 256).length < 128 ∧
            (pngSig.isPrefixOf (resp.body.take 256) ∨
              jpgSig.isPrefixOf (resp.body.take 256))) := by
          intro hok
          rw [hiff.mpr hok] at hp
          exact absurd hp (by simp)
        exact iff_of_true ⟨rfl, ⟨e, rfl⟩⟩ hbad
    | ok u =>
        cases u
        have hok : resp.status = 200 ∧ ¬(resp.body.take 256).length < 128 ∧
            (pngSig.isPrefixOf (resp.body.take 256) ∨
              jpgSig.isPrefixOf (resp.body.take 256)) := hiff.mp hp
        simp only [hok, not_true_eq_false, iff_false, not_and, not_exists]
        cases hfs : env.fs (imgOutPath (imgEffCfg cfg0 barg) op) <;> cases force <;>
            simp_all <;>
          by_cases hr : env.renderOk = false ∧ env.fallbackOk = false <;>
            simp only [hr] <;> (repeat' split) <;> simp_all

/-- C6 witness: a 200/PNG response passes the probe and the run with a
    cached output returns it; a 404 response fails the probe and aborts
    the run before rendering. -/
theorem claim_C6_witness :
    (test_xyz_tile (imgEffCfg w6cfgI none) w6envOk = .ok () ↔
      (wTileOk.status = 200 ∧ ¬(wTileOk.body.take 256).length < 128 ∧
        (pngSig.isPrefixOf (wTileOk.body.take 256) ∨
          jpgSig.isPrefixOf (wTileOk.body.take 256)))) ∧
    (((run_export_imagery w6envBad w6cfgI none none false).renderRan = false ∧
        ∃ e, (run_export_imagery w6envBad w6cfgI none none false).result =
          .error e) ↔
      ¬(wTileBad.status = 200 ∧ ¬(wTileBad.body.take 256).length < 128 ∧
        (pngSig.isPrefixOf (wTileBad.body.take 256) ∨
          jpgSig.isPrefixOf (wTileBad.body.take 256)))) :=
  ⟨(claim_C6_xyz_probe w6envOk w6cfgI none none false wLayer wTileOk (by decide)
      (by decide) (by decide) (by decide) (by decide) (by decide) (by decide)).1,
   (claim_C6_xyz_probe w6envBad w6cfgI none none false wLayer wTileBad (by decide)
      (by decide) (by decide) (by decide) (by decide) (by decide) (by decide)).2.2⟩

/-- C10: for the xyz provider, the service layer opening, the boundary
    loading/validation and the tile probe all happen before the output
    cache check: even with force off and the output already present, each
    of those failures aborts the run with an error instead of returning
    the existing output path. -/
theorem claim_C10_probe_before_cache (env : QgisEnv) (cfg0 : ImgCfg)
    (op barg : Option PyPath) (bl : Layer) (resp : TileResp)
    (hprov : cfg0.imagery_provider = "xyz")
    (hurl : optTruthy cfg0.xyz_url = true)
    (hq : env.qgisOk = true) (hpf : cfg0.project_file = "")
    (_hout : env.fs (imgOutPath (imgEffCfg cfg0 barg) op) = true) :
    (env.serviceLayerOpens = false →
      (run_export_imagery env cfg0 op barg false).result =
        .error "Failed to load imagery service layer") ∧
    (env.serviceLayerOpens = true →
      load_boundary_layer env (imgEffCfg cfg0 barg).boundaryCfg none = .ok none →
      (run_export_imagery env cfg0 op barg false).result =
        .error "Boundary layer not found. Set SITE_BOUNDARY_PATH or SITE_BOUNDARY_LAYER.") ∧
    (env.serviceLayerOpens = true →
      load_boundary_layer env (imgEffCfg cfg0 barg).boundaryCfg none =
        .ok (some bl) →
      env.tileFetch = some resp → resp.status ≠ 200 →
      (run_export_imagery env cfg0 op barg false).probeRan = true ∧
      (run_export_imagery env cfg0 op barg false).result =
        .error "XYZ tile test failed. Check URL/network access" ∧
      (run_export_imagery env cfg0 op barg false).result ≠
        .ok ⟨imgOutPath (imgEffCfg cfg0 barg) op, false⟩) := by
  have h1 : ¬(cfg0.imagery_provider = "wms" ∧
      ¬(optTruthy cfg0.wms_url ∧ optTruthy cfg0.wms_layers)) := by
    simp [hprov]
  have h2 : ¬(cfg0.imagery_provider = "xyz" ∧ ¬optTruthy cfg0.xyz_url) := by
    simp [hprov, hurl]
  have h3 : ¬(cfg0.imagery_provider ≠ "wms" ∧ cfg0.imagery_provider ≠ "xyz") := by
    simp [hprov]
  have hx : (imgEffCfg cfg0 barg).imagery_provider = "xyz" := by
    simp [hprov]
  refine ⟨fun hsl => ?_, fun hsl hbn => ?_, fun hsl hbs hf h200 => ?_⟩
  · unfold run_export_imagery
    rw [if_neg h1, if_neg h2, if_neg h3]
    simp [hq, hpf, hsl]
  · unfold run_export_imagery
    rw [if_neg h1, if_neg h2, if_neg h3]
    simp only [hq, not_true_eq_false, if_false, hpf, ne_eq, not_false_eq_true,
      reduceIte, hsl, hbn]
  · unfold run_export_imagery
    rw [if_neg h1, if_neg h2, if_neg h3]
    simp only [hq, not_true_eq_false, if_false, hpf, ne_eq, not_false_eq_true,
      reduceIte, hsl, hbs]
    have hperr : test_xyz_tile (imgEffCfg cfg0 barg) env =
        .error "XYZ tile test failed. Check URL/network access" := by
      unfold test_xyz_tile
      rw [imgEffCfg_xyz_url, hurl]
      dsimp only
      rw [if_neg (by simp), hf]
      dsimp only
      rw [if_pos h200]
    rw [if_pos hx, hperr]
    simp [hx, hprov]

/-- C10 witness: with the cached output present and force off, an xyz run
    whose probe gets HTTP 404 still probes and errors rather than
    returning the cached path. -/
theorem claim_C10_witness :
    (run_export_imagery w6envBad w6cfgI none none false).probeRan = true ∧
    (run_export_imagery w6envBad w6cfgI none none false).result =
      .error "XYZ tile test failed. Check URL/network access" ∧
    (run_export_imagery w6envBad w6cfgI none none false).result ≠
      .ok ⟨imgOutPath (imgEffCfg w6cfgI none) none, false⟩ :=
  (claim_C10_probe_before_cache w6envBad w6cfgI none none wLayer wTileBad
    (by decide) (by decide) (by decide) (by decide) (by decide)).2.2
    (by decide) (by decide) (by decide) (by decide)


/-- For latitudes of at most 85 degrees (in radians), the Mercator
    vertical term `log (tan x + sec x)` stays below `pi`. -/
theorem merc_log_le_pi (x : ℝ) (h : |x| ≤ 85 * Real.pi / 180) :
    Real.log (Real.tan x + 1 / Real.cos x) ≤ Real.pi := by
  have hpi := Real.pi_pos
  have habs := abs_le.mp h
  have hhalf : (85 : ℝ) * Real.pi / 180 < Real.pi / 2 := by nlinarith
  have hx1 : -(Real.pi / 2) < x := by linarith [habs.1]
  have hx2 : x < Real.pi / 2 := by linarith [habs.2]
  have hcos : 0 < Real.cos x := Real.cos_pos_of_mem_Ioo ⟨hx1, hx2⟩
  have hcosc : Real.cos (85 * Real.pi / 180) ≤ Real.cos x := by
    rw [← Real.cos_abs x]
    exact Real.cos_le_cos_of_nonneg_of_le_pi (abs_nonneg x) (by linarith) h
  have hc_eq : Real.cos (85 * Real.pi / 180) = Real.sin (Real.pi / 36) := by
    rw [← Real.sin_pi_div_two_sub]
    ring_nf
  have hpig : (3141592 : ℝ) / 1000000 < Real.pi := by
    have := Real.pi_gt_d6
    norm_num at this
    linarith
  have hpil : Real.pi < (3141593 : ℝ) / 1000000 := by
    have := Real.pi_lt_d6
    norm_num at this
    linarith
  have hsin36 : (871 : ℝ) / 10000 < Real.sin (Real.pi / 36) := by
    have h0 : 0 < Real.pi / 36 := by positivity
    have h1 : Real.pi / 36 ≤ 1 := by linarith
    have hcube := Real.sin_gt_sub_cube h0 h1
    have hxhi : Real.pi / 36 ≤ (3141593 : ℝ) / 1000000 / 36 := by linarith
    have hxcube : (Real.pi / 36) ^ 3 ≤ ((3141593 : ℝ) / 1000000 / 36) ^ 3 :=
      pow_le_pow_left₀ (le_of_lt h0) hxhi 3
    have hnum : (871 : ℝ) / 10000 <
        (3141592 : ℝ) / 1000000 / 36 - ((3141593 : ℝ) / 1000000 / 36) ^ 3 / 4 := by
      norm_num
    have hxlo : (3141592 : ℝ) / 1000000 / 36 ≤ Real.pi / 36 := by linarith
    linarith
  have hcosb : (871 : ℝ) / 10000 < Real.cos x := by
    rw [hc_eq] at hcosc
    linarith
  have hsin_gt : -1 < Real.sin x := by
    have hs := Real.sin_lt_sin_of_lt_of_le_pi_div_two
      (le_refl (-(Real.pi / 2))) (le_of_lt hx2) hx1
    rwa [Real.sin_neg, Real.sin_pi_div_two] at hs
  have htan : Real.tan x + 1 / Real.cos x = (Real.sin x + 1) / Real.cos x := by
    rw [Real.tan_eq_sin_div_cos]
    field_simp
  have hvpos : 0 < (Real.sin x + 1) / Real.cos x :=
    div_pos (by linarith) hcos
  have hvle : (Real.sin x + 1) / Real.cos x ≤ 2 / ((871 : ℝ) / 10000) :=
    div_le_div₀ (by norm_num) (by linarith [Real.sin_le_one x]) (by norm_num)
      (le_of_lt hcosb)
  have hexp : (2 : ℝ) / ((871 : ℝ) / 10000) ≤ Real.exp Real.pi := by
    have hmono : Real.exp ((3141592 : ℝ) / 1000000) ≤ Real.exp Real.pi :=
      Real.exp_le_exp.mpr (le_of_lt hpig)
    have hsplit : Real.exp ((3141592 : ℝ) / 1000000) =
        Real.exp 3 * Real.exp ((141592 : ℝ) / 1000000) := by
      rw [← Real.exp_add]
      norm_num
    have hexp3 : (2.7182818283 : ℝ) ^ 3 ≤ Real.exp 3 := by
      have h9 := Real.exp_one_gt_d9
      have hp3 : (2.7182818283 : ℝ) ^ 3 ≤ (Real.exp 1) ^ 3 :=
        pow_le_pow_left₀ (by norm_num) (le_of_lt h9) 3
      have he3 : (Real.exp 1) ^ 3 = Real.exp 3 := by
        rw [← Real.exp_nat_mul]
        norm_num
      linarith
    have hsq : Real.exp ((141592 : ℝ) / 1000000) =
        (Real.exp ((70796 : ℝ) / 1000000)) ^ 2 := by
      rw [← Real.exp_nat_mul]
      norm_num
    have hexpf : ((1 : ℝ) + 70796 / 1000000) ^ 2 ≤
        Real.exp ((141592 : ℝ) / 1000000) := by
      rw [hsq]
      have ha := Real.add_one_le_exp ((70796 : ℝ) / 1000000)
      exact pow_le_pow_left₀ (by norm_num) (by linarith) 2
    have hmul : (2.7182818283 : ℝ) ^ 3 * ((1 : ℝ) + 70796 / 1000000) ^ 2 ≤
        Real.exp 3 * Real.exp ((141592 : ℝ) / 1000000) :=
      mul_le_mul hexp3 hexpf (by positivity) (by positivity)
    have hnum : (2 : ℝ) / ((871 : ℝ) / 10000) ≤
        (2.7182818283 : ℝ) ^ 3 * ((1 : ℝ) + 70796 / 1000000) ^ 2 := by
      norm_num
    linarith
  rw [htan]
  rw [Real.log_le_iff_le_exp hvpos]
  linarith

/-- C4: on the valid slippy-map domain (longitude at least -180 degrees,
    latitude within 85 degrees of the equator, below the clamping
    threshold), the code's `int()`-truncated tile indices agree exactly
    with the floor-based standard slippy-map formula of the spec. -/
theorem claim_C4_tile_math (lat lon : ℝ) (z : ℕ)
    (hlon : -180 ≤ lon) (hlat : |lat| ≤ 85) :
    xyzTileCode lat lon z = xyzTileSpec lat lon z := by
  have hl := abs_le.mp hlat
  have hpi := Real.pi_pos
  have hclamp1 : max (min lat 85.05112878) (-85.05112878) = lat := by
    rw [min_eq_left (by norm_num; linarith), max_eq_left (by norm_num; linarith)]
  have hclamp2 : max (min lat 85.0511) (-85.0511) = lat := by
    rw [min_eq_left (by norm_num; linarith), max_eq_left (by norm_num; linarith)]
  have hθ : |lat * Real.pi / 180| ≤ 85 * Real.pi / 180 := by
    have habs : |lat * Real.pi / 180| = |lat| * Real.pi / 180 := by
      rw [abs_div, abs_mul, abs_of_nonneg (le_of_lt hpi)]
      norm_num
    rw [habs]
    gcongr
  have hL := merc_log_le_pi (lat * Real.pi / 180) hθ
  have hx0 : (0 : ℝ) ≤ (lon + 180) / 360 * 2 ^ z := by
    apply mul_nonneg (div_nonneg (by linarith) (by norm_num)) (by positivity)
  have hy0 : (0 : ℝ) ≤
      (1 - Real.log (Real.tan (lat * Real.pi / 180) +
        1 / Real.cos (lat * Real.pi / 180)) / Real.pi) / 2 * 2 ^ z := by
    apply mul_nonneg _ (by positivity)
    apply div_nonneg _ (by norm_num)
    have hd : Real.log (Real.tan (lat * Real.pi / 180) +
        1 / Real.cos (lat * Real.pi / 180)) / Real.pi ≤ 1 :=
      (div_le_one hpi).mpr hL
    linarith
  unfold xyzTileCode xyzTileSpec
  dsimp only
  norm_num at hclamp1 hclamp2 ⊢
  rw [hclamp1, hclamp2]
  refine ⟨?_, ?_⟩
  · rw [pyInt, if_pos hx0]
  · rw [pyInt]
    rw [if_pos (by simpa [one_div] using hy0)]

/-- C4 witness: the theorem applied at the origin with zoom 1. -/
theorem claim_C4_witness : xyzTileCode 0 0 1 = xyzTileSpec 0 0 1 :=
  claim_C4_tile_math 0 0 1 (by norm_num) (by norm_num)

end DFF